import Mathlib

/-
Verification of backup_util.py (kindkaktus/backup-util).

Shallow embedding of the backup orchestration core. Every effectful
primitive the procedures call (subprocess invocations, the object store,
the filesystem, the log file) is represented by an oracle recorded in an
environment value, and each public procedure of backup_util.py is
translated, control-flow branch by control-flow branch, into a pure
function from that environment to the returned result dict, together
with a trace of the observable side effects (temporary directories
created and removed, retention-sweeper invocation).

Python exceptions are modelled with an explicit error type threaded as
Except; the try/except/finally structure of each procedure is translated
so that an exception raised inside the try block reaches the except
handlers, while an exception raised inside the finally block itself
(before the return statement at its end) propagates to the caller, as it
does in Python.
-/

namespace BackupUtil

/-- Python exception values raised by the primitives the procedures call.
Every constructor models an Exception subclass, so all of them are caught
by an except-Exception clause. -/
inductive PyExn where
  | nameError (n : String)
  | typeError (msg : String)
  | attributeError (msg : String)
  | ioError (msg : String)
  | clientError (code : Nat)
  | otherError (msg : String)
  deriving DecidableEq, Repr

/-- Rendering of type(e) as used in the except-handler format strings
(Python prints class names; the quotes around the name are elided because
this development avoids apostrophes in string literals). -/
def exn_typename : PyExn → String
  | .nameError _ => "NameError"
  | .typeError _ => "TypeError"
  | .attributeError _ => "AttributeError"
  | .ioError _ => "OSError"
  | .clientError _ => "ClientError"
  | .otherError _ => "Exception"

/-- Rendering of str(e) as used in the except-handler format strings. -/
def exn_text : PyExn → String
  | .nameError n => "name " ++ n ++ " is not defined"
  | .typeError m => m
  | .attributeError m => m
  | .ioError m => m
  | .clientError c => "ClientError " ++ toString c
  | .otherError m => m

/-- Byte strings captured from a subprocess, abstracted by what the
decoding steps of backup_util.py can observe of them: whether the bytes
are valid UTF-8, the UTF-8 decoding when they are, and the decoding with
U+FFFD replacement characters when they are not. -/
structure PyBytes where
  valid : Bool
  text : String
  replaced : String
  deriving DecidableEq, Repr

/-- Embedding of _to_unicode (backup_util.py lines 31-45). When the bytes
are valid UTF-8 it returns their decoding. When decoding raises
UnicodeDecodeError, the handler on lines 42-43 calls _write_log with a
single argument, but _write_log (lines 21-24) takes two positional
parameters (log_file, msg); in Python that call raises TypeError, which
is not caught inside _to_unicode, so the replacement decode on line 44 is
never reached and the TypeError propagates to the caller of _to_unicode. -/
def to_unicode (s : PyBytes) : Except PyExn String :=
  if s.valid then .ok s.text
  else .error (.typeError "_write_log() missing 1 required positional argument: msg")

/-- Python str.rstrip with no argument: drop trailing whitespace. -/
def pyRstrip (s : String) : String :=
  ⟨(s.data.reverse.dropWhile Char.isWhitespace).reverse⟩

/-- Result of one subprocess.Popen + communicate call: the exit code and
the raw bytes captured from the two streams. -/
structure PopenOut where
  returncode : Int
  out : PyBytes
  err : PyBytes
  deriving DecidableEq, Repr

/-- The ret/description/stdout/stderr dict returned by the helper
runners (_svn_backup and friends). For _archive and _cleanup_old_archines,
whose dicts carry no stdout key, the stdout field is the empty string. -/
structure CmdOutcome where
  ret : Bool
  description : String
  stdout : String
  stderr : String
  deriving DecidableEq, Repr

/-- One file matched by glob.glob in backup_latest, with its st_mtime. -/
structure GFile where
  name : String
  mtime : Nat
  deriving DecidableEq, Repr

/-- One remote object of a list_objects_v2 Contents entry: Key,
LastModified and Size. -/
structure S3Obj where
  key : String
  lastModified : Nat
  size : Nat
  deriving DecidableEq, Repr

/-- Oracle environment for one procedure run: the outcome of every
effectful primitive the run can invoke. Log writes are modelled
uniformly per run (the same log path is opened by every _write_log call),
mkdtemp returns tmpName (and tmpName2 for the inner call in _git_backup). -/
structure Env where
  writeLogOk : Bool
  tmpName : String
  tmpName2 : String
  svnPopen : Except PyExn PopenOut
  svnUpPopen : Except PyExn PopenOut
  gitPopen : Except PyExn PopenOut
  mysqlPopen : Except PyExn PopenOut
  tracPopen : Except PyExn PopenOut
  archivePrep : Except PyExn Unit
  archivePopen : Except PyExn PopenOut
  sweepPopen : Except PyExn PopenOut
  lampCopies : Except PyExn Unit
  existsOnS3 : Except PyExn Bool
  upload : Except PyExn Unit
  prettySize : Except PyExn String
  elapsed : String
  globFiles : List GFile
  bucketExists : Bool
  listing : List S3Obj
  localExists : Bool
  localSize : Nat

/-- The BackupResult dict every public procedure returns:
retval, status_brief, status_detailed. -/
structure ProcResult where
  retval : Bool
  status_brief : String
  status_detailed : String
  deriving DecidableEq, Repr

/-- Observable side effects of one procedure run, tracked alongside the
returned value: temporary directories created by tempfile.mkdtemp and
directories passed to shutil.rmtree, whether _cleanup_old_archines was
invoked, and the final value of the backup_ok flag. -/
structure RunTrace where
  tempCreated : List String
  tempRemoved : List String
  sweeperRan : Bool
  backupOk : Bool
  deriving DecidableEq, Repr

/-- Exception raised by _write_log (line 22) when the log file cannot be
opened for append. The first _write_log call of every public procedure
sits before its try block, so this exception propagates to the caller. -/
def logFailExn : PyExn := .ioError "could not open log file for append"

/-- os.path.dirname: everything before the last slash, empty otherwise. -/
def dirnameOf (p : String) : String :=
  ⟨((p.data.reverse.dropWhile (fun c => decide (c ≠ '/'))).drop 1).reverse⟩

/-- Extension component of os.path.splitext, including the dot; empty
when the path has no dot. Used only for the arguments of the retention
sweep and their rendering in its description string. -/
def splitextOf (p : String) : String :=
  let extRev := p.data.reverse.takeWhile (fun c => decide (c ≠ '.'))
  if extRev.length = p.data.length then ""
  else ⟨'.' :: extRev.reverse⟩

/-- Embedding of _svn_backup (lines 91-107): svnadmin hotcopy via the
shell (the Popen + communicate outcome is the svnPopen oracle and can
raise), then _to_unicode on both captured streams (which can raise on
invalid UTF-8), then the exit-code test. -/
def svn_backup (env : Env) (svn_dir : String) : Except PyExn CmdOutcome :=
  match env.svnPopen with
  | .error e => .error e
  | .ok p =>
    match to_unicode p.out with
    | .error e => .error e
    | .ok so =>
      match to_unicode p.err with
      | .error e => .error e
      | .ok se =>
        if p.returncode != 0 then
          .ok ⟨false, "svn backup at " ++ svn_dir ++ " finished with return code "
                ++ toString p.returncode, pyRstrip so, pyRstrip se⟩
        else
          .ok ⟨true, "svn backup at " ++ svn_dir ++ " completed successfully.",
                pyRstrip so, pyRstrip se⟩

/-- Embedding of _svn_update (lines 110-126); same shape as _svn_backup.
The quotes Python puts around svn update in the description are elided. -/
def svn_update (env : Env) (svn_dir : String) : Except PyExn CmdOutcome :=
  match env.svnUpPopen with
  | .error e => .error e
  | .ok p =>
    match to_unicode p.out with
    | .error e => .error e
    | .ok so =>
      match to_unicode p.err with
      | .error e => .error e
      | .ok se =>
        if p.returncode != 0 then
          .ok ⟨false, "svn update of " ++ svn_dir ++ " finished with return code "
                ++ toString p.returncode, pyRstrip so, pyRstrip se⟩
        else
          .ok ⟨true, "svn update of " ++ svn_dir ++ " completed successfully.",
                pyRstrip so, pyRstrip se⟩

/-- Embedding of _git_backup (lines 177-195). mkdtemp creates a temporary
clone directory (tmpName2). There is no try/finally: the rmtree on line
183 runs only when Popen and communicate return normally, and it runs
before the two _to_unicode decodes. The first component of the result
records the directories created and removed by this helper. -/
def git_backup (env : Env) (clone_url repo_archive_path : String) :
    (List String × List String) × Except PyExn CmdOutcome :=
  match env.gitPopen with
  | .error e => (([env.tmpName2], []), .error e)
  | .ok p =>
    (([env.tmpName2], [env.tmpName2]),
      match to_unicode p.out with
      | .error e => .error e
      | .ok so =>
        match to_unicode p.err with
        | .error e => .error e
        | .ok se =>
          if p.returncode != 0 then
            .ok ⟨false, "git local backup from " ++ clone_url ++ " to "
                  ++ repo_archive_path ++ " finished with return code "
                  ++ toString p.returncode ++ ".", pyRstrip so, pyRstrip se⟩
          else
            .ok ⟨true, "git local backup from " ++ clone_url ++ " to "
                  ++ repo_archive_path ++ " completed successfully.",
                  pyRstrip so, pyRstrip se⟩)

/-- Embedding of _mysql_db_backup (lines 198-214); same shape as
_svn_backup. -/
def mysql_db_backup (env : Env) (db_name backup_path : String) : Except PyExn CmdOutcome :=
  match env.mysqlPopen with
  | .error e => .error e
  | .ok p =>
    match to_unicode p.out with
    | .error e => .error e
    | .ok so =>
      match to_unicode p.err with
      | .error e => .error e
      | .ok se =>
        if p.returncode != 0 then
          .ok ⟨false, "MySQL backup of " ++ db_name ++ " to " ++ backup_path
                ++ " finished with return code " ++ toString p.returncode ++ ".",
                pyRstrip so, pyRstrip se⟩
        else
          .ok ⟨true, "MySQL backup of " ++ db_name ++ " to " ++ backup_path
                ++ " completed successfully.", pyRstrip so, pyRstrip se⟩

/-- Embedding of _trac_backup (lines 217-233); same shape as _svn_backup.
The description really says svn backup in the source (copied text). -/
def trac_backup (env : Env) (trac_dir : String) : Except PyExn CmdOutcome :=
  match env.tracPopen with
  | .error e => .error e
  | .ok p =>
    match to_unicode p.out with
    | .error e => .error e
    | .ok so =>
      match to_unicode p.err with
      | .error e => .error e
      | .ok se =>
        if p.returncode != 0 then
          .ok ⟨false, "svn backup at " ++ trac_dir ++ " finished with return code "
                ++ toString p.returncode ++ ".", pyRstrip so, pyRstrip se⟩
        else
          .ok ⟨true, "svn backup at " ++ trac_dir ++ " completed successfully.",
                pyRstrip so, pyRstrip se⟩

/-- Embedding of _archive (lines 236-254): _get_s3_archive_pwd reads the
passphrase file and os.makedirs creates the destination directory (both
folded into the archivePrep oracle, either can raise), then 7za runs with
stdout discarded to devnull, and only stderr is decoded. -/
def archive (env : Env) (src_dir dest_archive : String) : Except PyExn CmdOutcome :=
  match env.archivePrep with
  | .error e => .error e
  | .ok _ =>
    match env.archivePopen with
    | .error e => .error e
    | .ok p =>
      match to_unicode p.err with
      | .error e => .error e
      | .ok se =>
        if p.returncode != 0 then
          .ok ⟨false, "archiving " ++ src_dir ++ " to " ++ dest_archive
                ++ " finished with return code " ++ toString p.returncode ++ ".",
                "", pyRstrip se⟩
        else
          .ok ⟨true, "archiving " ++ src_dir ++ " to " ++ dest_archive
                ++ " completed successfully.", "", pyRstrip se⟩

/-- Embedding of _cleanup_old_archines (lines 257-271) as invoked by the
procedures: the find/rm shell-out is the sweepPopen oracle and its stderr
is decoded with _to_unicode, which can raise on invalid UTF-8. The effect
of the find command on the directory listing itself is modelled
separately by cleanup_old_archines_effect below. -/
def cleanup_old_archines (env : Env) (d ext : String) : Except PyExn CmdOutcome :=
  match env.sweepPopen with
  | .error e => .error e
  | .ok p =>
    match to_unicode p.err with
    | .error e => .error e
    | .ok se =>
      if p.returncode != 0 then
        .ok ⟨false, "cleaning up " ++ d ++ "/*" ++ ext ++ " finished with return code "
              ++ toString p.returncode ++ ".", "", pyRstrip se⟩
      else
        .ok ⟨true, "cleaning up " ++ d ++ "/*" ++ ext ++ " completed successfully.",
              "", pyRstrip se⟩

/-- A plain file of the archive directory, described by its name and its
age in seconds at the moment the sweep runs. -/
structure DirFile where
  name : String
  ageSec : Nat
  deriving DecidableEq, Repr

/-- The shell glob star-ext of the find invocation on line 258: a name
matches when it ends with ext, except that a leading star never matches a
leading dot, so dot-files are skipped. -/
def glob_star_ext (ext : String) (f : DirFile) : Bool :=
  ext.data.isSuffixOf f.name.data && decide (f.name.data.head? ≠ some '.')

/-- find -mtime +N: the age in whole 24-hour periods, with the fractional
part discarded, must exceed N. -/
def mtime_older (max_age : Nat) (f : DirFile) : Bool :=
  decide (max_age < f.ageSec / 86400)

/-- Effect on a flat directory listing of the shell command run by
_cleanup_old_archines (line 258): find dir/star-ext -mtime +max_age
-exec rm -f removes exactly the matching files old enough for -mtime +N;
every other file survives. -/
def cleanup_old_archines_effect (files : List DirFile) (ext : String) (max_age : Nat) :
    List DirFile :=
  files.filter (fun f => !(glob_star_ext ext f && mtime_older max_age f))

/-- MAX_ARCHIVE_AGE_DAYS (line 18), the default max_age of
_cleanup_old_archines. -/
def MAX_ARCHIVE_AGE_DAYS : Nat := 20

instance : DecidableRel (fun a b : S3Obj => a.lastModified ≤ b.lastModified) :=
  fun a b => Nat.decLe a.lastModified b.lastModified

instance : DecidableRel (fun a b : GFile => a.mtime ≤ b.mtime) :=
  fun a b => Nat.decLe a.mtime b.mtime

/-- keys.sort with key LastModified (line 164), modelled with insertion
sort; like the Python list sort it produces a sorted permutation. -/
def sortByLastModified (ks : List S3Obj) : List S3Obj :=
  List.insertionSort (fun a b => a.lastModified ≤ b.lastModified) ks

/-- Embedding of _find_latest_modified_s3_key (lines 156-169). When the
bucket is missing, list_objects_v2 raises NoSuchBucket; when the bucket
holds no object under the prefix, the response has no Contents key and
the subscription raises KeyError. In both cases the except clause on line
168 evaluates boto3.S3, and the boto3 module has no attribute S3, so an
AttributeError is raised while handling the original exception and
propagates; the return None on line 169 is unreachable, as is the
else-branch of the if on line 163 (a Contents list, when present, is
never empty). -/
def find_latest_modified_s3_key (env : Env) : Except PyExn (Option S3Obj) :=
  if env.bucketExists then
    match env.listing with
    | [] => .error (.attributeError "module boto3 has no attribute S3")
    | ks => .ok (sortByLastModified ks).getLast?
  else .error (.attributeError "module boto3 has no attribute S3")

/-- Embedding of _download_from_s3 (lines 172-174): the function creates
s3_client on line 173 but line 174 calls s3.download_file, a name that is
nowhere defined, so every call raises NameError. -/
def download_from_s3 : Except PyExn Unit :=
  .error (.nameError "s3")

/-- Embedding of _is_file_exist_on_s3 (lines 136-147): getsize plus
head_object plus the ContentLength comparison; a 404 returns False, any
other ClientError is re-raised. All folded into the existsOnS3 oracle. -/
def is_file_exist_on_s3 (env : Env) : Except PyExn Bool := env.existsOnS3

/-- Embedding of _pretty_filesize (lines 82-88): os.path.getsize (which
can raise) plus pure formatting, folded into the prettySize oracle. -/
def pretty_filesize (env : Env) : Except PyExn String := env.prettySize

/-- sorted(glob.glob(mask), key=st_mtime) followed by files[-1]
(lines 519 and 524), modelled with insertion sort. Returns none exactly
when the glob matched nothing. -/
def latest_glob_file (files : List GFile) : Option GFile :=
  (List.insertionSort (fun a b => a.mtime ≤ b.mtime) files).getLast?

/-- Shared result assembly at the end of every finally block: retval
mirrors backup_ok, and the brief status receives the matching OK or
FAILED suffix. -/
def finish_result (ok : Bool) (brief0 sd : String) : ProcResult :=
  ⟨ok, brief0 ++ (if ok then " OK" else " FAILED"), sd⟩

/-- Shared except-Exception handler (for example lines 382-385): the
exception type and text are appended to the detailed status accumulated
so far and backup_ok stays False. _backup_svn (line 314) formats the pair
without a period, every other procedure with one; sep carries that
difference. (The bare except fallback for non-Exception faults is not
modelled: every PyExn constructor is an Exception subclass.) -/
def handle_body (sep : String) : Except (PyExn × String) (Bool × String) → Bool × String
  | .ok bs => bs
  | .error (e, s) => (false, s ++ "\nError: " ++ exn_typename e ++ sep ++ " " ++ exn_text e)

/-- Upload-decision block shared verbatim by backup_dir, _backup_svn,
backup_lamp and backup_git_repo (for example lines 373-381): check
existence and size on S3, upload when absent, record a skip otherwise.
The error value carries the detailed status accumulated when the raise
happened (format arguments are evaluated before an assignment completes,
so a raise inside _pretty_filesize leaves the status unchanged).
backup_trac and backup_latest have their own variants below because
their skip branches reference undefined names. -/
def upload_decision (env : Env) (archive_path : String) : Except (PyExn × String) String :=
  match env.existsOnS3 with
  | .error e => .error (e, "")
  | .ok onS3 =>
    if onS3 then
      match env.prettySize with
      | .error e => .error (e, "")
      | .ok sz =>
        .ok ("The file " ++ archive_path ++ " with size " ++ sz
              ++ " already exists at to S3, skip upload\n")
    else
      match env.prettySize with
      | .error e => .error (e, "")
      | .ok sz =>
        let sd := "Uploading " ++ archive_path ++ " (" ++ sz ++ ") to S3..."
        match env.upload with
        | .error e => .error (e, sd)
        | .ok _ => .ok (sd ++ "done.")

/-- Upload decision of backup_trac (lines 570-578): the upload branch is
the shared one, but the skip branch on lines 576-577 formats
backup_filepath, a name never defined in backup_trac, so it raises
NameError before backup_ok is set. -/
def upload_decision_trac (env : Env) (archive_path : String) :
    Except (PyExn × String) String :=
  match env.existsOnS3 with
  | .error e => .error (e, "")
  | .ok onS3 =>
    if onS3 then .error (.nameError "backup_filepath", "")
    else
      match env.prettySize with
      | .error e => .error (e, "")
      | .ok sz =>
        let sd := "Uploading " ++ archive_path ++ " (" ++ sz ++ ") to S3..."
        match env.upload with
        | .error e => .error (e, sd)
        | .ok _ => .ok (sd ++ "done.")

/-- Shared finally block of the archive-producing procedures (for example
lines 386-399): append the OK or FAILED suffix, run _cleanup_old_archines
on the archive directory filtered by its extension when backup_ok is True
(an exception raised there propagates, since the return statement at the
end of the finally block has not been reached yet), append the elapsed
time to the detailed status and return the result dict. -/
def finish_backup (env : Env) (created removed : List String) (brief0 sd : String)
    (backupOk : Bool) (archive_path : String) : RunTrace × Except PyExn ProcResult :=
  if backupOk then
    match cleanup_old_archines env (dirnameOf archive_path) (splitextOf archive_path) with
    | .error e => (⟨created, removed, true, true⟩, .error e)
    | .ok _ =>
      (⟨created, removed, true, true⟩,
        .ok (finish_result true brief0 (sd ++ "\nElapsed time: " ++ env.elapsed)))
  else
    (⟨created, removed, false, false⟩,
      .ok (finish_result false brief0 (sd ++ "\nElapsed time: " ++ env.elapsed)))

/-- try-block body of backup_dir (lines 368-381): archive the directory,
then the upload decision. -/
def backup_dir_body (env : Env) (dirArg archive_path : String) :
    Except (PyExn × String) (Bool × String) :=
  match archive env dirArg archive_path with
  | .error e => .error (e, "")
  | .ok retA =>
    if retA.ret then
      match upload_decision env archive_path with
      | .error es => .error es
      | .ok sd => .ok (true, sd)
    else .ok (false, "")

/-- Embedding of backup_dir (lines 362-399). The first _write_log sits
before the try block, so a failure to open the log file propagates; once
inside, the structure is body, handler, shared finally block. No
temporary directory is created. -/
def backup_dir (env : Env) (hint dirArg archive_path _bucket_name : String) :
    RunTrace × Except PyExn ProcResult :=
  let brief0 := "[S3 Backup] " ++ hint
  if env.writeLogOk then
    let st := handle_body "." (backup_dir_body env dirArg archive_path)
    finish_backup env [] [] brief0 st.2 st.1 archive_path
  else (⟨[], [], false, false⟩, .error logFailExn)

/-- The two svn modes of _backup_svn (lines 273-275). The unsupported-type
branch of line 295 is unreachable from the two public wrappers and is not
modelled. -/
inductive SvnBackupType where
  | repo
  | working_copy
  deriving DecidableEq, Repr

/-- try-block body of _backup_svn (lines 285-311). In REPO mode mkdtemp
has already produced env.tmpName (the hot-copy target, which then becomes
the archive source); in WORKING_COPY mode the working copy is updated in
place and archived from its own path. -/
def backup_svn_body (env : Env) (ty : SvnBackupType) (svn_url archive_path : String) :
    Except (PyExn × String) (Bool × String) :=
  let snap : Except PyExn CmdOutcome :=
    match ty with
    | .repo => svn_backup env svn_url
    | .working_copy => svn_update env svn_url
  match snap with
  | .error e => .error (e, "")
  | .ok ret0 =>
    if ret0.ret then
      let src := match ty with | .repo => env.tmpName | .working_copy => svn_url
      match archive env src archive_path with
      | .error e => .error (e, "")
      | .ok retA =>
        if retA.ret then
          match upload_decision env archive_path with
          | .error es => .error es
          | .ok sd => .ok (true, sd)
        else .ok (false, "")
    else .ok (false, "")

/-- Embedding of _backup_svn (lines 278-332). In REPO mode the temporary
hot-copy directory is created by mkdtemp right after entering the try
block and the finally block always passes it to rmtree; in WORKING_COPY
mode no temporary directory exists. The handler on line 314 formats the
exception without a period. -/
def backup_svn (env : Env) (backup_name_hint : String) (ty : SvnBackupType)
    (svn_url archive_path _bucket_name : String) : RunTrace × Except PyExn ProcResult :=
  let brief0 := "[S3 Backup] " ++ backup_name_hint
  if env.writeLogOk then
    let tmps := match ty with | .repo => [env.tmpName] | .working_copy => []
    let st := handle_body "" (backup_svn_body env ty svn_url archive_path)
    finish_backup env tmps tmps brief0 st.2 st.1 archive_path
  else (⟨[], [], false, false⟩, .error logFailExn)

/-- backup_svn_repo (lines 455-456). -/
def backup_svn_repo (env : Env) (hint svn_url archive_path _bucket_name : String) :
    RunTrace × Except PyExn ProcResult :=
  backup_svn env hint .repo svn_url archive_path _bucket_name

/-- backup_svn_wc (lines 459-460). -/
def backup_svn_wc (env : Env) (hint svn_dir archive_path _bucket_name : String) :
    RunTrace × Except PyExn ProcResult :=
  backup_svn env hint .working_copy svn_dir archive_path _bucket_name

/-- try-block body of backup_lamp (lines 411-432): mkdtemp (already
reflected in the trace), the four copytree calls (lampCopies oracle, any
failure raises), mysqldump, archive, upload decision. -/
def backup_lamp_body (env : Env) (db_name archive_path : String) :
    Except (PyExn × String) (Bool × String) :=
  match env.lampCopies with
  | .error e => .error (e, "")
  | .ok _ =>
    match mysql_db_backup env db_name (env.tmpName ++ "/" ++ db_name ++ ".sql") with
    | .error e => .error (e, "")
    | .ok ret0 =>
      if ret0.ret then
        match archive env env.tmpName archive_path with
        | .error e => .error (e, "")
        | .ok retA =>
          if retA.ret then
            match upload_decision env archive_path with
            | .error es => .error es
            | .ok sd => .ok (true, sd)
          else .ok (false, "")
      else .ok (false, "")

/-- Embedding of backup_lamp (lines 403-452). mkdtemp is the first
statement of the try block, so the temporary directory exists on every
path through the body and the finally block always removes it. -/
def backup_lamp (env : Env) (backup_name_hint db_name archive_path _bucket_name : String) :
    RunTrace × Except PyExn ProcResult :=
  let brief0 := "[S3 Backup] " ++ backup_name_hint
  if env.writeLogOk then
    let st := handle_body "." (backup_lamp_body env db_name archive_path)
    finish_backup env [env.tmpName] [env.tmpName] brief0 st.2 st.1 archive_path
  else (⟨[], [], false, false⟩, .error logFailExn)

/-- try-block body of backup_git_repo (lines 470-489): _git_backup
clones and bundles into the outer temporary directory (mkdtemp already
reflected in the trace), then archive and upload decision. -/
def backup_git_repo_body (env : Env) (clone_url archive_path : String) :
    Except (PyExn × String) (Bool × String) :=
  match (git_backup env clone_url (env.tmpName ++ "/git_repo.bundle")).2 with
  | .error e => .error (e, "")
  | .ok ret0 =>
    if ret0.ret then
      match archive env env.tmpName archive_path with
      | .error e => .error (e, "")
      | .ok retA =>
        if retA.ret then
          match upload_decision env archive_path with
          | .error es => .error es
          | .ok sd => .ok (true, sd)
        else .ok (false, "")
    else .ok (false, "")

/-- Embedding of backup_git_repo (lines 463-509). The outer mkdtemp
(line 472) produces env.tmpName, always removed by the finally block;
_git_backup makes and normally removes its own inner clone directory, but
leaks it when Popen itself raises (no try/finally in _git_backup). -/
def backup_git_repo (env : Env) (backup_name_hint clone_url archive_path _bucket_name : String) :
    RunTrace × Except PyExn ProcResult :=
  let brief0 := "[S3 Backup] " ++ backup_name_hint
  if env.writeLogOk then
    let g := git_backup env clone_url (env.tmpName ++ "/git_repo.bundle")
    let st := handle_body "." (backup_git_repo_body env clone_url archive_path)
    finish_backup env (env.tmpName :: g.1.1) (g.1.2 ++ [env.tmpName]) brief0 st.2 st.1 archive_path
  else (⟨[], [], false, false⟩, .error logFailExn)

/-- try-block body of backup_trac (lines 559-578): trac-admin hotcopy
into tmpName/trac (mkdtemp already reflected in the trace), archive,
then the trac upload decision whose skip branch raises NameError. -/
def backup_trac_body (env : Env) (trac_dir archive_path : String) :
    Except (PyExn × String) (Bool × String) :=
  match trac_backup env trac_dir with
  | .error e => .error (e, "")
  | .ok ret0 =>
    if ret0.ret then
      match archive env (env.tmpName ++ "/trac") archive_path with
      | .error e => .error (e, "")
      | .ok retA =>
        if retA.ret then
          match upload_decision_trac env archive_path with
          | .error es => .error es
          | .ok sd => .ok (true, sd)
        else .ok (false, "")
    else .ok (false, "")

/-- Embedding of backup_trac (lines 552-598). Line 561 sets
temp_backup_dir to mkdtemp() plus the literal /trac, so the directory
recorded for removal by the finally block (line 585) is the trac
subdirectory, not the directory mkdtemp created: tempCreated holds
env.tmpName while tempRemoved holds env.tmpName/trac. -/
def backup_trac (env : Env) (backup_name_hint trac_dir archive_path _bucket_name : String) :
    RunTrace × Except PyExn ProcResult :=
  let brief0 := "[S3 Backup] " ++ backup_name_hint
  if env.writeLogOk then
    let st := handle_body "." (backup_trac_body env trac_dir archive_path)
    finish_backup env [env.tmpName] [env.tmpName ++ "/trac"] brief0 st.2 st.1 archive_path
  else (⟨[], [], false, false⟩, .error logFailExn)

/-- try-block body of backup_latest (lines 518-534). Empty glob match: a
successful no-op with a nothing-to-backup status (lines 520-522).
Otherwise the newest file is the upload candidate; the upload branch logs
the pretty size (line 527-528, the prettySize oracle can raise there) and
uploads; the skip branch (lines 532-533) formats
_pretty_filesize(archive_path), and archive_path is not defined anywhere
in backup_latest, so the skip branch raises NameError. -/
def backup_latest_body (env : Env) (backup_filemask : String) :
    Except (PyExn × String) (Bool × String) :=
  match latest_glob_file env.globFiles with
  | none => .ok (true, "Nothing to backup in " ++ backup_filemask)
  | some bf =>
    match env.existsOnS3 with
    | .error e => .error (e, "")
    | .ok onS3 =>
      if onS3 then .error (.nameError "archive_path", "")
      else
        let sd := "Uploading " ++ bf.name ++ " to S3..."
        match env.prettySize with
        | .error e => .error (e, sd)
        | .ok _ =>
          match env.upload with
          | .error e => .error (e, sd)
          | .ok _ => .ok (true, sd ++ "done.")

/-- Shell of backup_latest around the body above: the pre-try log write,
the handler, and the finally block (lines 539-549), which appends OK or
FAILED but, unlike the archive-producing procedures, never invokes
_cleanup_old_archines. -/
def backup_latest (env : Env) (backup_name_hint backup_filemask _bucket_name : String) :
    RunTrace × Except PyExn ProcResult :=
  let brief0 := "[S3 Backup] " ++ backup_name_hint
  if env.writeLogOk then
    let st := handle_body "." (backup_latest_body env backup_filemask)
    (⟨[], [], false, st.1⟩,
      .ok (finish_result st.1 brief0 (st.2 ++ "\nElapsed time: " ++ env.elapsed)))
  else (⟨[], [], false, false⟩, .error logFailExn)

/-- try-block body of download_latest (lines 608-626). It finds the
newest key; the download branch calls _download_from_s3, which always
raises NameError on the undefined name s3; the skip branch applies the
percent operator to a format string without percent specifiers (line
619), raising TypeError. The None case of the key lookup is unreachable,
but is translated faithfully: it leaves store_path unassigned (the
second component is none). On success the returned pair carries the
detailed status and the assigned store_path. -/
def download_latest_body (env : Env) (bucket_name filePfx store_dir : String) :
    Except (PyExn × String) (String × Option String) :=
  match find_latest_modified_s3_key env with
  | .error e => .error (e, "")
  | .ok none =>
    .ok ("No file found in bucket " ++ bucket_name ++ " starting with "
          ++ filePfx ++ ", nothing to do\n" ++ "done.", none)
  | .ok (some k) =>
    let store_path := store_dir ++ "/" ++ k.key
    if !env.localExists || decide (env.localSize ≠ k.size) then
      let sd := "Downloading " ++ k.key ++ " from " ++ bucket_name
                  ++ " to " ++ store_path ++ "..."
      match download_from_s3 with
      | .error e => .error (e, sd)
      | .ok _ => .ok (sd ++ "done.", some store_path)
    else
      .error (.typeError "not all arguments converted during string formatting", "")

/-- Embedding of download_latest (lines 601-642) around the body above:
the pre-try log write, the handler, and the finally block. In the
success side, an unassigned store_path (the unreachable None branch)
would raise on the unbound local at line 635. The failure side of the
finally block appends no elapsed time. -/
def download_latest (env : Env) (bucket_name filePfx store_dir : String) :
    RunTrace × Except PyExn ProcResult :=
  let brief0 := "[S3 Backup] Get the latest backup starting with " ++ filePfx
                  ++ " from " ++ bucket_name ++ ":"
  if env.writeLogOk then
    match download_latest_body env bucket_name filePfx store_dir with
    | .ok (sd, storePathOpt) =>
      match storePathOpt with
      | none => (⟨[], [], false, true⟩, .error (.nameError "store_path"))
      | some sp =>
        match env.prettySize with
        | .error e => (⟨[], [], false, true⟩, .error e)
        | .ok sz =>
          (⟨[], [], false, true⟩,
            .ok (finish_result true brief0
              (sd ++ "\nSuccessfully downloaded " ++ sp ++ " (" ++ sz ++ ")"
                ++ "\nElapsed time: " ++ env.elapsed)))
    | .error (e, s) =>
      let sd := s ++ "\nError: " ++ exn_typename e ++ "." ++ " " ++ exn_text e
      (⟨[], [], false, false⟩,
        .ok (finish_result false brief0
          (sd ++ "ERROR downloading from " ++ bucket_name ++ " to " ++ store_dir)))
  else (⟨[], [], false, false⟩, .error logFailExn)

/-
String suffix machinery for the OK / FAILED brief-status contract.
-/

/-- The string s ends in t (the reading of ends-in used by the status
contract): t.data is a suffix of s.data. -/
def strEndsWith (s t : String) : Bool := t.data.isSuffixOf s.data

/-- The string s starts with t: t.data is a prefix of s.data. -/
def strStartsWith (s t : String) : Bool := t.data.isPrefixOf s.data

theorem getLast_eq_of_suffix {l₁ l₂ : List Char} (h : l₁ <:+ l₂) (hne : l₁ ≠ []) :
    l₂.getLast? = l₁.getLast? := by
  obtain ⟨u, rfl⟩ := h
  exact List.getLast?_append_of_ne_nil u hne

theorem strEndsWith_append_ne (s t u : String) (c d : Char)
    (hu : u.data.getLast? = some c) (ht : t.data.getLast? = some d) (hcd : c ≠ d) :
    strEndsWith (s ++ u) t = false := by
  simp only [strEndsWith]
  rw [Bool.eq_false_iff]
  intro hx
  have hsuf := List.isSuffixOf_iff_suffix.mp hx
  have htne : t.data ≠ [] := by
    intro h0
    rw [h0] at ht
    simp at ht
  have hlast := getLast_eq_of_suffix hsuf htne
  have hune : u.data ≠ [] := by
    intro h0
    rw [h0] at hu
    simp at hu
  rw [String.data_append, List.getLast?_append_of_ne_nil _ hune, hu, ht] at hlast
  exact hcd (by injection hlast)

theorem strEndsWith_suffix_of (s t u : String) (h : t.data <:+ u.data) :
    strEndsWith (s ++ u) t = true := by
  simp only [strEndsWith]
  exact List.isSuffixOf_iff_suffix.mpr
    (by rw [String.data_append]; exact h.trans (List.suffix_append _ _))

theorem strEndsWith_OK_OK (s : String) : strEndsWith (s ++ " OK") "OK" = true :=
  strEndsWith_suffix_of s "OK" " OK" ⟨[' '], by decide⟩

theorem strEndsWith_FAILED_FAILED (s : String) :
    strEndsWith (s ++ " FAILED") "FAILED" = true :=
  strEndsWith_suffix_of s "FAILED" " FAILED" ⟨[' '], by decide⟩

theorem strEndsWith_OK_FAILED (s : String) : strEndsWith (s ++ " OK") "FAILED" = false :=
  strEndsWith_append_ne s "FAILED" " OK" 'K' 'D' (by decide) (by decide) (by decide)

theorem strEndsWith_FAILED_OK (s : String) : strEndsWith (s ++ " FAILED") "OK" = false :=
  strEndsWith_append_ne s "OK" " FAILED" 'D' 'K' (by decide) (by decide) (by decide)

/-- The status contract of one procedure run: when a result record is
returned, its retval flag is False exactly when its brief status ends in
FAILED and True exactly when it ends in OK. Nothing is claimed for a run
that raised instead of returning. -/
def statusConsistent : RunTrace × Except PyExn ProcResult → Prop
  | (_, .ok r) =>
      ((r.retval = false) ↔ strEndsWith r.status_brief "FAILED" = true)
        ∧ ((r.retval = true) ↔ strEndsWith r.status_brief "OK" = true)
  | (_, .error _) => True

theorem statusConsistent_finish (tr : RunTrace) (ok : Bool) (b sd : String) :
    statusConsistent (tr, .ok (finish_result ok b sd)) := by
  cases ok with
  | false =>
    constructor
    · simp [finish_result, strEndsWith_FAILED_FAILED]
    · simp [finish_result, strEndsWith_FAILED_OK]
  | true =>
    constructor
    · simp [finish_result, strEndsWith_OK_FAILED]
    · simp [finish_result, strEndsWith_OK_OK]

theorem statusConsistent_finish_backup (env : Env) (cr rm : List String)
    (b0 sd : String) (ok : Bool) (ap : String) :
    statusConsistent (finish_backup env cr rm b0 sd ok ap) := by
  unfold finish_backup
  cases ok with
  | false => exact statusConsistent_finish _ _ _ _
  | true =>
    cases cleanup_old_archines env (dirnameOf ap) (splitextOf ap) with
    | error e => exact trivial
    | ok c => exact statusConsistent_finish _ _ _ _

/-
Sweeper safety: the hypothesis under which the retention-sweep call in a
finally block cannot itself raise.
-/

/-- The retention-sweep invocation cannot raise: the find/rm subprocess
returns (with any exit code) and its captured stderr is valid UTF-8, so
the decode inside _cleanup_old_archines does not hit the broken
_to_unicode fallback. -/
def sweeperSafe (env : Env) : Prop :=
  match env.sweepPopen with
  | .error _ => False
  | .ok p => p.err.valid = true

theorem cleanup_isOk (env : Env) (hSW : sweeperSafe env) (d ext : String) :
    (cleanup_old_archines env d ext).isOk = true := by
  unfold sweeperSafe at hSW
  unfold cleanup_old_archines
  cases hp : env.sweepPopen with
  | error e => rw [hp] at hSW; exact absurd hSW (by simp)
  | ok p =>
    rw [hp] at hSW
    simp only [to_unicode, hSW, if_true]
    split <;> rfl

theorem finish_backup_isOk (env : Env) (hSW : sweeperSafe env) (cr rm : List String)
    (b0 sd : String) (ok : Bool) (ap : String) :
    (finish_backup env cr rm b0 sd ok ap).2.isOk = true := by
  unfold finish_backup
  cases ok with
  | false => rfl
  | true =>
    have h := cleanup_isOk env hSW (dirnameOf ap) (splitextOf ap)
    cases hc : cleanup_old_archines env (dirnameOf ap) (splitextOf ap) with
    | error e => rw [hc] at h; exact absurd h (by simp [Except.isOk, Except.toBool])
    | ok c => simp only [hc]; rfl

theorem sweeperRan_finish_backup (env : Env) (cr rm : List String)
    (b0 sd : String) (ok : Bool) (ap : String) :
    (finish_backup env cr rm b0 sd ok ap).1.sweeperRan = ok
      ∧ (finish_backup env cr rm b0 sd ok ap).1.backupOk = ok := by
  unfold finish_backup
  cases ok with
  | false => exact ⟨rfl, rfl⟩
  | true =>
    cases cleanup_old_archines env (dirnameOf ap) (splitextOf ap) with
    | error e => exact ⟨rfl, rfl⟩
    | ok c => exact ⟨rfl, rfl⟩

theorem retval_finish_backup (env : Env) (cr rm : List String)
    (b0 sd : String) (ok : Bool) (ap : String) :
    match (finish_backup env cr rm b0 sd ok ap).2 with
    | .ok r => r.retval = ok
    | .error _ => True := by
  unfold finish_backup
  cases ok with
  | false => exact rfl
  | true =>
    cases cleanup_old_archines env (dirnameOf ap) (splitextOf ap) with
    | error e => exact trivial
    | ok c => exact rfl

/-
Maximality of the last element of a sorted permutation, for the two
latest-by-timestamp selections (backup_latest and
_find_latest_modified_s3_key).
-/

instance : IsTotal GFile (fun a b => a.mtime ≤ b.mtime) :=
  ⟨fun a b => Nat.le_total a.mtime b.mtime⟩

instance : IsTrans GFile (fun a b => a.mtime ≤ b.mtime) :=
  ⟨fun _ _ _ => Nat.le_trans⟩

instance : IsTotal S3Obj (fun a b => a.lastModified ≤ b.lastModified) :=
  ⟨fun a b => Nat.le_total a.lastModified b.lastModified⟩

instance : IsTrans S3Obj (fun a b => a.lastModified ≤ b.lastModified) :=
  ⟨fun _ _ _ => Nat.le_trans⟩

theorem rel_getLast_of_sorted {α : Type} {r : α → α → Prop} (hrefl : ∀ a, r a a) :
    ∀ (l : List α), l.Sorted r → ∀ c, l.getLast? = some c → ∀ g, g ∈ l → r g c := by
  intro l
  induction l with
  | nil => intro _ c hc; simp at hc
  | cons a t ih =>
    intro hs c hc g hg
    cases t with
    | nil =>
      have hca : c = a := by
        have h2 : some a = some c := hc
        injection h2 with h3
        exact h3.symm
      have hga : g = a := by simpa using hg
      rw [hga, hca]
      exact hrefl a
    | cons b t2 =>
      have hc2 : (b :: t2).getLast? = some c := hc
      have hs2 := List.sorted_cons.mp hs
      rcases List.mem_cons.mp hg with rfl | hg2
      · exact hs2.1 c (List.mem_of_mem_getLast? hc2)
      · exact ih hs2.2 c hc2 g hg2

theorem latest_glob_file_max (files : List GFile) (hne : files ≠ []) :
    ∃ c, latest_glob_file files = some c ∧ c ∈ files ∧
      ∀ g ∈ files, g.mtime ≤ c.mtime := by
  have hperm := List.perm_insertionSort (fun a b : GFile => a.mtime ≤ b.mtime) files
  have hne2 : List.insertionSort (fun a b : GFile => a.mtime ≤ b.mtime) files ≠ [] := by
    intro h0
    rw [h0] at hperm
    exact hne hperm.nil_eq.symm
  obtain ⟨c, hc⟩ := Option.isSome_iff_exists.mp (List.getLast?_isSome.mpr hne2)
  refine ⟨c, hc, hperm.mem_iff.mp (List.mem_of_mem_getLast? hc), ?_⟩
  intro g hg
  have hsorted := List.sorted_insertionSort (fun a b : GFile => a.mtime ≤ b.mtime) files
  exact @rel_getLast_of_sorted GFile (fun a b => a.mtime ≤ b.mtime)
    (fun a => Nat.le_refl a.mtime)
    (List.insertionSort (fun a b : GFile => a.mtime ≤ b.mtime) files) hsorted c hc g
    (hperm.mem_iff.mpr hg)

theorem find_latest_ne_ok_none (env : Env) :
    find_latest_modified_s3_key env ≠ .ok none := by
  unfold find_latest_modified_s3_key
  split
  · cases hl : env.listing with
    | nil => simp
    | cons a t =>
      intro hx
      have hnone : (sortByLastModified (a :: t)).getLast? = none := by
        injection hx
      rw [List.getLast?_eq_none_iff] at hnone
      have hperm := List.perm_insertionSort
        (fun a b : S3Obj => a.lastModified ≤ b.lastModified) (a :: t)
      rw [sortByLastModified] at hnone
      rw [hnone] at hperm
      exact List.cons_ne_nil a t hperm.nil_eq.symm
  · simp

/-
Concrete oracle environments for counterexamples and witnesses.
-/

/-- A subprocess outcome that exits 0 with empty, validly decoding
output on both streams. -/
def okPopen : PopenOut := ⟨0, ⟨true, "", ""⟩, ⟨true, "", ""⟩⟩

/-- Baseline oracle environment: log writable, every primitive succeeds,
the remote object is absent (the upload path is taken), the glob finds
two log files, the bucket exists and lists two objects with distinct
modification stamps, and no local copy exists at the download
destination. -/
def envHappy : Env where
  writeLogOk := true
  tmpName := "/tmp/tmpabc"
  tmpName2 := "/tmp/tmpdef"
  svnPopen := .ok okPopen
  svnUpPopen := .ok okPopen
  gitPopen := .ok okPopen
  mysqlPopen := .ok okPopen
  tracPopen := .ok okPopen
  archivePrep := .ok ()
  archivePopen := .ok okPopen
  sweepPopen := .ok okPopen
  lampCopies := .ok ()
  existsOnS3 := .ok false
  upload := .ok ()
  prettySize := .ok "1.0MB"
  elapsed := "1 sec"
  globFiles := [⟨"a.log", 10⟩, ⟨"b.log", 30⟩]
  bucketExists := true
  listing := [⟨"x", 5, 100⟩, ⟨"y", 9, 200⟩]
  localExists := false
  localSize := 0

/-- envHappy with an unwritable log file. -/
def envNoLog : Env := { envHappy with writeLogOk := false }

/-- envHappy after a previous identical run: the remote object already
exists with the size of the local file, so the upload decision takes the
skip branch. -/
def envSkip : Env := { envHappy with existsOnS3 := .ok true }

/-- envHappy with a glob that matches nothing. -/
def envEmptyGlob : Env := { envHappy with globFiles := [] }

/-- envHappy with an existing bucket that holds no object under the
prefix. -/
def envEmptyListing : Env := { envHappy with listing := [] }

/-- envHappy with a faulting upload step: the object-store client raises
a ClientError while uploading. -/
def envUploadFault : Env := { envHappy with upload := .error (.clientError 500) }

/-- C2: backup_trac run at the baseline environment. The run succeeds,
yet the directory created by mkdtemp (line 561) is not the directory the
finally block removes (line 585): rmtree receives the trac subdirectory,
and the mkdtemp directory itself leaks, contradicting the claim that
every temporary directory created during SNAPSHOT is removed before the
procedure returns. -/
theorem C2_backup_trac_leaks_mkdtemp_dir :
    ((backup_trac envHappy "h" "/srv/trac" "/backups/a.7z" "bkt").2.map ProcResult.retval
        = Except.ok true) ∧
    (backup_trac envHappy "h" "/srv/trac" "/backups/a.7z" "bkt").1.tempCreated
        = ["/tmp/tmpabc"] ∧
    (backup_trac envHappy "h" "/srv/trac" "/backups/a.7z" "bkt").1.tempRemoved
        = ["/tmp/tmpabc/trac"] ∧
    "/tmp/tmpabc" ∉
      (backup_trac envHappy "h" "/srv/trac" "/backups/a.7z" "bkt").1.tempRemoved :=
  ⟨rfl, rfl, by decide, by decide⟩

/-- C3: evaluation at the second-run configuration (remote object already
present with matching size). The skip branches of backup_trac (line 577,
undefined backup_filepath) and backup_latest (line 533, undefined
archive_path) raise NameError, so both report FAILED instead of a
recorded skip with success; backup_dir, whose skip branch is well formed,
shows the intended behaviour. -/
theorem C3_second_run_skip_branch :
    ((backup_trac envSkip "h" "/srv/trac" "/backups/a.7z" "bkt").2.map ProcResult.retval
        = Except.ok false) ∧
    ((backup_latest envSkip "h" "/var/x/m.log" "bkt").2.map ProcResult.retval
        = Except.ok false) ∧
    ((backup_dir envSkip "h" "/data" "/backups/a.7z" "bkt").2.map ProcResult.retval
        = Except.ok true) :=
  ⟨rfl, rfl, rfl⟩

/-- C4: _find_latest_modified_s3_key picks the key with the latest
modification stamp (y at 9 over x at 5), but _download_from_s3 always
raises NameError on the undefined name s3 (line 174), so the download
branch of download_latest reports FAILED instead of downloading and
succeeding. -/
theorem C4_selects_latest_but_download_raises :
    find_latest_modified_s3_key envHappy = .ok (some ⟨"y", 9, 200⟩) ∧
    download_from_s3 = .error (.nameError "s3") ∧
    ((download_latest envHappy "bkt" "a" "/restore").2.map ProcResult.retval
        = Except.ok false) :=
  ⟨rfl, rfl, rfl⟩

/-- C6 counterexample: a successful backup_latest run never invokes the
retention sweeper (its finally block, lines 539-549, has no
_cleanup_old_archines call), refuting the claim that the sweeper runs on
every successful run of every backup procedure. -/
theorem C6_counterexample_backup_latest_no_sweep :
    ((backup_latest envHappy "h" "/var/x/m.log" "bkt").2.map ProcResult.retval
        = Except.ok true) ∧
    (backup_latest envHappy "h" "/var/x/m.log" "bkt").1.sweeperRan = false :=
  ⟨rfl, rfl⟩

/-- C7 counterexample: a file one second more than 20 days old matches
the suffix and is strictly older than the 20-day threshold, yet find
-mtime +20 keeps it, because find counts age in whole 24-hour periods and
1728001 seconds is still day 20. -/
theorem C7_counterexample_fraction_of_day :
    cleanup_old_archines_effect [⟨"a.7z", 1728001⟩] ".7z" 20 = [⟨"a.7z", 1728001⟩] ∧
    MAX_ARCHIVE_AGE_DAYS * 86400 < 1728001 ∧
    glob_star_ext ".7z" ⟨"a.7z", 1728001⟩ = true := by
  refine ⟨by decide, by decide, by decide⟩

/-- C8: _to_unicode returns the UTF-8 decoding for valid bytes, but for
any invalid byte sequence it raises TypeError (the one-argument
_write_log call on lines 42-43) instead of logging and returning the
replacement decoding. -/
theorem C8_decode_fallback_raises :
    (∀ t r, to_unicode ⟨true, t, r⟩ = .ok t) ∧
    to_unicode ⟨false, "", "�"⟩ =
      .error (.typeError "_write_log() missing 1 required positional argument: msg") :=
  ⟨fun _ _ => rfl, rfl⟩

/-- C7 amended: the sweep deletes exactly the files that match the shell
glob star-ext (suffix match, dot-files excluded) and whose age reaches
max_age plus one whole days, the find -mtime +N reading of older than
the threshold; a matching file that exceeds the threshold by less than a
full day is kept. -/
theorem C7_amended_sweeps_whole_days (files : List DirFile) (ext : String)
    (max_age : Nat) (f : DirFile) (hf : f ∈ files) :
    f ∈ cleanup_old_archines_effect files ext max_age ↔
      ¬(glob_star_ext ext f = true ∧ (max_age + 1) * 86400 ≤ f.ageSec) := by
  have hdiv : max_age < f.ageSec / 86400 ↔ (max_age + 1) * 86400 ≤ f.ageSec := by
    rw [Nat.lt_iff_add_one_le]
    exact Nat.le_div_iff_mul_le (by norm_num)
  rw [cleanup_old_archines_effect, List.mem_filter]
  constructor
  · rintro ⟨-, hp⟩ ⟨hg, hage⟩
    rw [Bool.not_eq_true', Bool.and_eq_false_iff] at hp
    rcases hp with hg2 | hm
    · rw [hg] at hg2
      exact absurd hg2 (by simp)
    · rw [mtime_older, decide_eq_false_iff_not] at hm
      exact hm (hdiv.mpr hage)
  · intro hn
    refine ⟨hf, ?_⟩
    rw [Bool.not_eq_true', Bool.and_eq_false_iff]
    cases hg : glob_star_ext ext f with
    | false => exact Or.inl rfl
    | true =>
      refine Or.inr ?_
      rw [mtime_older, decide_eq_false_iff_not]
      intro hlt
      exact hn ⟨hg, hdiv.mp hlt⟩

/-- C7 witness: the amended characterization applied to a file exactly
21 whole days old, which is deleted. -/
theorem C7_amended_witness :
    (⟨"b.7z", 1814400⟩ : DirFile) ∈ ([⟨"b.7z", 1814400⟩] : List DirFile) ∧
    ((⟨"b.7z", 1814400⟩ : DirFile) ∈ cleanup_old_archines_effect
        [⟨"b.7z", 1814400⟩] ".7z" 20 ↔
      ¬(glob_star_ext ".7z" ⟨"b.7z", 1814400⟩ = true ∧ (20 + 1) * 86400 ≤ 1814400)) :=
  ⟨by decide, C7_amended_sweeps_whole_days [⟨"b.7z", 1814400⟩] ".7z" 20
    ⟨"b.7z", 1814400⟩ (by decide)⟩

/-
Sweeper-invocation discipline (claim C6).
-/

/-- Sweeper discipline of one run: the retention sweeper was invoked
exactly when the backup_ok flag was set, and a returned record reports
that same flag. -/
def sweepsIffOk (p : RunTrace × Except PyExn ProcResult) : Prop :=
  p.1.sweeperRan = p.1.backupOk ∧
    match p.2 with
    | .ok r => r.retval = p.1.backupOk
    | .error _ => True

theorem sweepsIffOk_finish_backup (env : Env) (cr rm : List String)
    (b0 sd : String) (ok : Bool) (ap : String) :
    sweepsIffOk (finish_backup env cr rm b0 sd ok ap) := by
  have h1 := sweeperRan_finish_backup env cr rm b0 sd ok ap
  refine ⟨h1.1.trans h1.2.symm, ?_⟩
  have h2 := retval_finish_backup env cr rm b0 sd ok ap
  rw [h1.2]
  exact h2

/-- C6 amended: for the six archive-producing procedures the retention
sweeper runs exactly when the backup and upload succeeded (and the
returned record reports that same flag); backup_latest, although it is a
backup procedure with successful runs, never invokes the sweeper. -/
theorem C6_amended_sweeper_iff_success :
    (∀ env h d ap bn, sweepsIffOk (backup_dir env h d ap bn)) ∧
    (∀ env h u ap bn, sweepsIffOk (backup_svn_repo env h u ap bn)) ∧
    (∀ env h u ap bn, sweepsIffOk (backup_svn_wc env h u ap bn)) ∧
    (∀ env h u ap bn, sweepsIffOk (backup_git_repo env h u ap bn)) ∧
    (∀ env h db ap bn, sweepsIffOk (backup_lamp env h db ap bn)) ∧
    (∀ env h td ap bn, sweepsIffOk (backup_trac env h td ap bn)) ∧
    (∀ env h m bn, (backup_latest env h m bn).1.sweeperRan = false) := by
  refine ⟨?_, ?_, ?_, ?_, ?_, ?_, ?_⟩
  · intro env h d ap bn
    simp only [backup_dir]
    split
    · exact sweepsIffOk_finish_backup _ _ _ _ _ _ _
    · exact ⟨rfl, trivial⟩
  · intro env h u ap bn
    simp only [backup_svn_repo, backup_svn]
    split
    · exact sweepsIffOk_finish_backup _ _ _ _ _ _ _
    · exact ⟨rfl, trivial⟩
  · intro env h u ap bn
    simp only [backup_svn_wc, backup_svn]
    split
    · exact sweepsIffOk_finish_backup _ _ _ _ _ _ _
    · exact ⟨rfl, trivial⟩
  · intro env h u ap bn
    simp only [backup_git_repo]
    split
    · exact sweepsIffOk_finish_backup _ _ _ _ _ _ _
    · exact ⟨rfl, trivial⟩
  · intro env h db ap bn
    simp only [backup_lamp]
    split
    · exact sweepsIffOk_finish_backup _ _ _ _ _ _ _
    · exact ⟨rfl, trivial⟩
  · intro env h td ap bn
    simp only [backup_trac]
    split
    · exact sweepsIffOk_finish_backup _ _ _ _ _ _ _
    · exact ⟨rfl, trivial⟩
  · intro env h m bn
    simp only [backup_latest]
    split
    · rfl
    · rfl

/-- C5: for every procedure and every oracle environment, whenever a
result record is returned, its succeeded flag is False exactly when the
brief status ends in FAILED and True exactly when it ends in OK. -/
theorem C5_succeeded_iff_brief_suffix :
    (∀ env h d ap bn, statusConsistent (backup_dir env h d ap bn)) ∧
    (∀ env h u ap bn, statusConsistent (backup_svn_repo env h u ap bn)) ∧
    (∀ env h u ap bn, statusConsistent (backup_svn_wc env h u ap bn)) ∧
    (∀ env h u ap bn, statusConsistent (backup_git_repo env h u ap bn)) ∧
    (∀ env h db ap bn, statusConsistent (backup_lamp env h db ap bn)) ∧
    (∀ env h td ap bn, statusConsistent (backup_trac env h td ap bn)) ∧
    (∀ env h m bn, statusConsistent (backup_latest env h m bn)) ∧
    (∀ env bn fp sd, statusConsistent (download_latest env bn fp sd)) := by
  refine ⟨?_, ?_, ?_, ?_, ?_, ?_, ?_, ?_⟩
  · intro env h d ap bn
    simp only [backup_dir]
    split
    · exact statusConsistent_finish_backup _ _ _ _ _ _ _
    · exact trivial
  · intro env h u ap bn
    simp only [backup_svn_repo, backup_svn]
    split
    · exact statusConsistent_finish_backup _ _ _ _ _ _ _
    · exact trivial
  · intro env h u ap bn
    simp only [backup_svn_wc, backup_svn]
    split
    · exact statusConsistent_finish_backup _ _ _ _ _ _ _
    · exact trivial
  · intro env h u ap bn
    simp only [backup_git_repo]
    split
    · exact statusConsistent_finish_backup _ _ _ _ _ _ _
    · exact trivial
  · intro env h db ap bn
    simp only [backup_lamp]
    split
    · exact statusConsistent_finish_backup _ _ _ _ _ _ _
    · exact trivial
  · intro env h td ap bn
    simp only [backup_trac]
    split
    · exact statusConsistent_finish_backup _ _ _ _ _ _ _
    · exact trivial
  · intro env h m bn
    simp only [backup_latest]
    split
    · exact statusConsistent_finish _ _ _ _
    · exact trivial
  · intro env bn fp sd
    simp only [download_latest]
    split
    · split
      · split
        · exact trivial
        · split
          · exact trivial
          · exact statusConsistent_finish _ _ _ _
      · exact statusConsistent_finish _ _ _ _
    · exact trivial

/-- C1 counterexample: with a log file that cannot be opened for append,
the very first _write_log of backup_dir (line 367) sits before the try
block, so the fault propagates out of the procedure instead of being
turned into a returned failed result record. -/
theorem C1_counterexample_log_fault_escapes :
    (backup_dir envNoLog "h" "/data" "/backups/a.7z" "bkt").2
      = Except.error logFailExn := rfl

/-- C1 amended: provided writing to the log file succeeds and the
retention-sweep invocation of the finally block cannot itself raise,
every public procedure returns a result record whatever the other oracle
outcomes are: every fault raised by the snapshot, archive,
existence-check, upload or download steps inside the try block is caught
there (the first eight conjuncts), and whenever the try-block body of a
procedure raises, the record the procedure returns is a failed one, with
retval false (the last eight conjuncts, one per procedure). -/
theorem C1_amended_no_fault_escapes (env : Env) (hWL : env.writeLogOk = true)
    (hSW : sweeperSafe env) :
    (∀ h d ap bn, (backup_dir env h d ap bn).2.isOk = true) ∧
    (∀ h u ap bn, (backup_svn_repo env h u ap bn).2.isOk = true) ∧
    (∀ h u ap bn, (backup_svn_wc env h u ap bn).2.isOk = true) ∧
    (∀ h u ap bn, (backup_git_repo env h u ap bn).2.isOk = true) ∧
    (∀ h db ap bn, (backup_lamp env h db ap bn).2.isOk = true) ∧
    (∀ h td ap bn, (backup_trac env h td ap bn).2.isOk = true) ∧
    (∀ h m bn, (backup_latest env h m bn).2.isOk = true) ∧
    (∀ bn fp sd, (download_latest env bn fp sd).2.isOk = true) ∧
    (∀ d ap es, backup_dir_body env d ap = .error es →
      ∀ h bn, (backup_dir env h d ap bn).2.map ProcResult.retval = Except.ok false) ∧
    (∀ u ap es, backup_svn_body env .repo u ap = .error es →
      ∀ h bn, (backup_svn_repo env h u ap bn).2.map ProcResult.retval = Except.ok false) ∧
    (∀ u ap es, backup_svn_body env .working_copy u ap = .error es →
      ∀ h bn, (backup_svn_wc env h u ap bn).2.map ProcResult.retval = Except.ok false) ∧
    (∀ cu ap es, backup_git_repo_body env cu ap = .error es →
      ∀ h bn, (backup_git_repo env h cu ap bn).2.map ProcResult.retval = Except.ok false) ∧
    (∀ db ap es, backup_lamp_body env db ap = .error es →
      ∀ h bn, (backup_lamp env h db ap bn).2.map ProcResult.retval = Except.ok false) ∧
    (∀ td ap es, backup_trac_body env td ap = .error es →
      ∀ h bn, (backup_trac env h td ap bn).2.map ProcResult.retval = Except.ok false) ∧
    (∀ m es, backup_latest_body env m = .error es →
      ∀ h bn, (backup_latest env h m bn).2.map ProcResult.retval = Except.ok false) ∧
    (∀ bn fp sd es, download_latest_body env bn fp sd = .error es →
      (download_latest env bn fp sd).2.map ProcResult.retval = Except.ok false) := by
  refine ⟨?_, ?_, ?_, ?_, ?_, ?_, ?_, ?_, ?_, ?_, ?_, ?_, ?_, ?_, ?_, ?_⟩
  · intro h d ap bn
    simp only [backup_dir]
    split
    · exact finish_backup_isOk env hSW _ _ _ _ _ _
    · simp_all
  · intro h u ap bn
    simp only [backup_svn_repo, backup_svn]
    split
    · exact finish_backup_isOk env hSW _ _ _ _ _ _
    · simp_all
  · intro h u ap bn
    simp only [backup_svn_wc, backup_svn]
    split
    · exact finish_backup_isOk env hSW _ _ _ _ _ _
    · simp_all
  · intro h u ap bn
    simp only [backup_git_repo]
    split
    · exact finish_backup_isOk env hSW _ _ _ _ _ _
    · simp_all
  · intro h db ap bn
    simp only [backup_lamp]
    split
    · exact finish_backup_isOk env hSW _ _ _ _ _ _
    · simp_all
  · intro h td ap bn
    simp only [backup_trac]
    split
    · exact finish_backup_isOk env hSW _ _ _ _ _ _
    · simp_all
  · intro h m bn
    simp only [backup_latest]
    split
    · rfl
    · simp_all
  · intro bn fp sd
    simp only [download_latest, download_latest_body]
    split
    · cases hf : find_latest_modified_s3_key env with
      | error e => simp only [hf]; rfl
      | ok o =>
        cases o with
        | none => exact absurd hf (find_latest_ne_ok_none env)
        | some k =>
          simp only [hf, download_from_s3]
          split
          · rename_i sd1 opt heq
            exfalso
            split at heq <;> simp at heq
          · rfl
    · simp_all
  · intro d ap es hbody h bn
    obtain ⟨e1, s1⟩ := es
    simp only [backup_dir, hbody]
    split
    · rfl
    · simp_all
  · intro u ap es hbody h bn
    obtain ⟨e1, s1⟩ := es
    simp only [backup_svn_repo, backup_svn, hbody]
    split
    · rfl
    · simp_all
  · intro u ap es hbody h bn
    obtain ⟨e1, s1⟩ := es
    simp only [backup_svn_wc, backup_svn, hbody]
    split
    · rfl
    · simp_all
  · intro cu ap es hbody h bn
    obtain ⟨e1, s1⟩ := es
    simp only [backup_git_repo, hbody]
    split
    · rfl
    · simp_all
  · intro db ap es hbody h bn
    obtain ⟨e1, s1⟩ := es
    simp only [backup_lamp, hbody]
    split
    · rfl
    · simp_all
  · intro td ap es hbody h bn
    obtain ⟨e1, s1⟩ := es
    simp only [backup_trac, hbody]
    split
    · rfl
    · simp_all
  · intro m es hbody h bn
    obtain ⟨e1, s1⟩ := es
    simp only [backup_latest, hbody]
    split
    · rfl
    · simp_all
  · intro bn fp sd es hbody
    obtain ⟨e1, s1⟩ := es
    simp only [download_latest, hbody]
    split
    · rfl
    · simp_all

/-- C1 witness: at the baseline environment, backup_dir and
download_latest both return result records; with a faulting upload step
the caught fault makes backup_dir return a failed record. -/
theorem C1_amended_witness :
    (backup_dir envHappy "h" "/data" "/backups/a.7z" "bkt").2.isOk = true ∧
    (download_latest envHappy "bkt" "a" "/restore").2.isOk = true ∧
    ((backup_dir envUploadFault "h" "/data" "/backups/a.7z" "bkt").2.map ProcResult.retval
      = Except.ok false) :=
  ⟨(C1_amended_no_fault_escapes envHappy rfl rfl).1 "h" "/data" "/backups/a.7z" "bkt",
   (C1_amended_no_fault_escapes envHappy rfl rfl).2.2.2.2.2.2.2.1 "bkt" "a" "/restore",
   (C1_amended_no_fault_escapes envUploadFault rfl rfl).2.2.2.2.2.2.2.2.1
     "/data" "/backups/a.7z"
     (.clientError 500, "Uploading /backups/a.7z (1.0MB) to S3...")
     rfl "h" "bkt"⟩

theorem strStartsWith_prefix4 (p m q r : String) :
    strStartsWith (((p ++ m) ++ q) ++ r) p = true := by
  simp only [strStartsWith, String.data_append, List.append_assoc]
  exact List.isPrefixOf_iff_prefix.mpr (List.prefix_append _ _)

/-- C9: backup_latest selects, whenever the glob matches at least one
file, an upload candidate that belongs to the matched files and whose
modification time is maximal among them; and when the glob matches
nothing it returns succeeded True with a detailed status that starts with
the nothing-to-backup message rather than a failure. -/
theorem C9_backup_latest_newest_or_noop (env : Env) (hint mask bn : String) :
    (env.globFiles ≠ [] →
      ∃ c, latest_glob_file env.globFiles = some c ∧ c ∈ env.globFiles ∧
        ∀ g ∈ env.globFiles, g.mtime ≤ c.mtime) ∧
    (env.globFiles = [] → env.writeLogOk = true →
      ((backup_latest env hint mask bn).2.map ProcResult.retval = Except.ok true) ∧
      ∃ r, (backup_latest env hint mask bn).2 = .ok r ∧
        strStartsWith r.status_detailed "Nothing to backup in " = true) := by
  refine ⟨latest_glob_file_max env.globFiles, ?_⟩
  intro hE hWL
  have hnone : latest_glob_file env.globFiles = none := by
    rw [hE]
    rfl
  simp only [backup_latest, backup_latest_body, hnone]
  split
  · refine ⟨rfl, ?_⟩
    refine ⟨_, rfl, ?_⟩
    exact strStartsWith_prefix4 "Nothing to backup in " mask "\nElapsed time: " env.elapsed
  · simp_all

/-- C9 witness: the maximality conclusion at the two-file glob of the
baseline environment, and the empty-glob success at the same environment
with an empty glob. -/
theorem C9_witness :
    (∃ c, latest_glob_file envHappy.globFiles = some c ∧ c ∈ envHappy.globFiles ∧
      ∀ g ∈ envHappy.globFiles, g.mtime ≤ c.mtime) ∧
    ((backup_latest envEmptyGlob "h" "/var/x/m.log" "bkt").2.map ProcResult.retval
      = Except.ok true) :=
  ⟨(C9_backup_latest_newest_or_noop envHappy "h" "/var/x/m.log" "bkt").1 (by decide),
   ((C9_backup_latest_newest_or_noop envEmptyGlob "h" "/var/x/m.log" "bkt").2 rfl rfl).1⟩

/-- C10: with an existing bucket and an empty listing under the prefix,
_find_latest_modified_s3_key raises (the missing Contents key raises
KeyError and the except clause of line 168 itself raises AttributeError
on boto3.S3) instead of returning None; no environment makes it return
None, so the nothing-to-do success branch of download_latest is dead code
and the procedure returns a failed result. -/
theorem C10_empty_listing_returns_failed (env : Env) (hB : env.bucketExists = true)
    (hL : env.listing = []) :
    find_latest_modified_s3_key env
        = .error (.attributeError "module boto3 has no attribute S3") ∧
    (∀ e2 : Env, find_latest_modified_s3_key e2 ≠ .ok none) ∧
    (env.writeLogOk = true → ∀ bn fp sd,
      (download_latest env bn fp sd).2.map ProcResult.retval = Except.ok false) := by
  have hfind : find_latest_modified_s3_key env
      = .error (.attributeError "module boto3 has no attribute S3") := by
    simp [find_latest_modified_s3_key, hB, hL]
  refine ⟨hfind, find_latest_ne_ok_none, ?_⟩
  intro hWL bn fp sd
  simp only [download_latest, download_latest_body, hfind]
  split
  · rfl
  · simp_all

/-- C10 witness: the failed download at the concrete empty-listing
environment. -/
theorem C10_witness :
    envEmptyListing.bucketExists = true ∧
    ((download_latest envEmptyListing "bkt" "a" "/restore").2.map ProcResult.retval
      = Except.ok false) :=
  ⟨rfl, (C10_empty_listing_returns_failed envEmptyListing rfl rfl).2.2 rfl "bkt" "a" "/restore"⟩

end BackupUtil
